import Mathlib

/-!
Shallow embedding of the `chicago_shore_temperature` repository
(`src/check_shore_temp.py`, `src/weather_checker.py`, `src/bot.py`).

The extractor `fetch_chicago_shore_temp` downloads a NOAA report page,
strips markup, and scans the plain text with two regular expressions:

  pattern   = `CHICAGO SHORE[.\s]+(\d+)`        (IGNORECASE)
  pattern_f = `CHICAGO SHORE.*?(\d+)\s*F`       (IGNORECASE | DOTALL)

The first match wins; the captured digit run is parsed with `int`.
Network effects are modelled by an oracle `net : Nat → Option (List Char)`
giving the (markup-stripped) document text of each attempt, or `none` for
a network failure.  Time (`time.sleep`) and logging are not modelled.

The notifier `send_telegram` is modelled with the two configuration
strings and a delivery oracle `post : String → String → Bool` standing
for the HTTP POST of a message to one chat id.
-/

namespace ChicagoShore

/-- ASCII whitespace recognised by `\s` in the patterns
(space, tab, newline, carriage return, vertical tab, form feed). -/
def isPySpace (c : Char) : Bool :=
  c = ' ' || c = '\t' || c = '\n' || c = '\r' || c = Char.ofNat 11 || c = Char.ofNat 12

/-- Character class `[.\s]` of the tight pattern. -/
def isDotWs (c : Char) : Bool :=
  c = '.' || isPySpace c

/-- Case-insensitive match of one document character `c` against one
pattern character `p` (the pattern letters are upper case ASCII). -/
def matchesCI (p c : Char) : Bool :=
  c = p || (p.isUpper && c.toNat = p.toNat + 32)

/-- The station label literal of both patterns. -/
def labelChars : List Char := [ 'C', 'H', 'I', 'C', 'A', 'G', 'O', ' ',
                                'S', 'H', 'O', 'R', 'E' ]

/-- Match the pattern prefix `pat` case-insensitively at the head of `cs`,
returning the remainder of `cs` after it. -/
def stripLabel : List Char → List Char → Option (List Char)
  | [], cs => some cs
  | _ :: _, [] => none
  | p :: ps, c :: cs => if matchesCI p c then stripLabel ps cs else none

/-- Anchored match of `CHICAGO SHORE[.\s]+(\d+)` at the head of `cs`:
the label, then a (greedy, at least one) run of `[.\s]`, then a greedy
run of digits, which is the captured group.  Since `[.\s]` and `\d` are
disjoint classes, the backtracking regex engine accepts exactly when the
maximal `[.\s]` run is non-empty and is followed by a digit. -/
def p1At (cs : List Char) : Option (List Char) :=
  match stripLabel labelChars cs with
  | none => none
  | some rest =>
    if rest.takeWhile isDotWs = [] then none
    else if (rest.dropWhile isDotWs).takeWhile Char.isDigit = [] then none
    else some ((rest.dropWhile isDotWs).takeWhile Char.isDigit)

/-- `re.search` with the tight pattern: try every start position from the
left, first anchored match wins. -/
def p1Search : List Char → Option (List Char)
  | [] => none
  | c :: cs =>
    match p1At (c :: cs) with
    | some ds => some ds
    | none => p1Search cs

/-- Anchored match of `(\d+)\s*F` at the head of `cs` (the part of the
fallback pattern after the lazy gap): a greedy digit run (the capture),
a greedy whitespace run, then `F`/`f`.  Backtracking the greedy runs
cannot help (a digit is not `\s` and neither a digit nor a whitespace
character is `F`), so the engine accepts exactly on the maximal runs. -/
def p2Inner (cs : List Char) : Option (List Char) :=
  if cs.takeWhile Char.isDigit = [] then none
  else
    match (cs.dropWhile Char.isDigit).dropWhile isPySpace with
    | [] => none
    | c :: _ =>
      if c = 'F' || c = 'f' then some (cs.takeWhile Char.isDigit) else none

/-- The lazy gap `.*?` (with DOTALL) of the fallback pattern: try the
suffix positions left to right, shortest gap first. -/
def p2Scan : List Char → Option (List Char)
  | [] => none
  | c :: cs =>
    match p2Inner (c :: cs) with
    | some ds => some ds
    | none => p2Scan cs

/-- Anchored match of `CHICAGO SHORE.*?(\d+)\s*F` at the head of `cs`. -/
def p2At (cs : List Char) : Option (List Char) :=
  match stripLabel labelChars cs with
  | none => none
  | some rest => p2Scan rest

/-- `re.search` with the fallback pattern `pattern_f`. -/
def p2Search : List Char → Option (List Char)
  | [] => none
  | c :: cs =>
    match p2At (c :: cs) with
    | some ds => some ds
    | none => p2Search cs

/-- Numeric value of a digit run (most significant first). -/
def digitsToNat (ds : List Char) : Nat :=
  ds.foldl (fun a c => 10 * a + (c.toNat - '0'.toNat)) 0

/-- `int(s)` on a captured group, with the `ValueError` branch:
succeeds exactly on a non-empty run of decimal digits. -/
def pyInt? (ds : List Char) : Option Int :=
  if ds = [] then none
  else if ds.all Char.isDigit then some (Int.ofNat (digitsToNat ds)) else none

/-- The parse stage of `fetch_chicago_shore_temp` applied to the
markup-stripped document text: try the tight pattern, on failure the
fallback pattern; on a match parse the captured group with `int`,
returning `None` on a parse failure; `None` when neither matches. -/
def extractTemp (doc : List Char) : Option Int :=
  match (match p1Search doc with
         | some g => some g
         | none => p2Search doc) with
  | some g => pyInt? g
  | none => none

/-- `extractTemp` on a `String` document. -/
def extract (doc : String) : Option Int :=
  extractTemp doc.data

/-- The fetch loop of `fetch_chicago_shore_temp`:
`for attempt in range(max_retries + 1)` with a `break` on success and a
`for ... else` returning `None` when every attempt failed.  `attempt` is
the current index, `fuel` the number of attempts still allowed after it. -/
def fetchLoop (net : Nat → Option (List Char)) : Nat → Nat → Option (List Char)
  | attempt, 0 => net attempt
  | attempt, fuel + 1 =>
    match net attempt with
    | some doc => some doc
    | none => fetchLoop net (attempt + 1) fuel

/-- Number of HTTP GET attempts the fetch loop issues. -/
def fetchAttempts (net : Nat → Option (List Char)) : Nat → Nat → Nat
  | _, 0 => 1
  | attempt, fuel + 1 =>
    match net attempt with
    | some _ => 1
    | none => 1 + fetchAttempts net (attempt + 1) fuel

/-- `fetch_chicago_shore_temp(max_retries)` of `check_shore_temp.py`:
retry the GET up to `maxRetries` extra times, return `None` once every
attempt failed, otherwise parse the fetched document. -/
def fetch_chicago_shore_temp (net : Nat → Option (List Char))
    (maxRetries : Nat) : Option Int :=
  match fetchLoop net 0 maxRetries with
  | none => none
  | some doc => extractTemp doc

/-- Python `TELEGRAM_CHAT_ID.split(",")`: split on every comma, keeping
empty fields (`"".split(",") == [""]`). -/
def splitOnComma : List Char → List (List Char)
  | [] => [[]]
  | c :: cs =>
    if c = ',' then [] :: splitOnComma cs
    else
      match splitOnComma cs with
      | [] => [[c]]
      | t :: ts => (c :: t) :: ts

/-- Python `str.strip()`: drop leading and trailing whitespace. -/
def pyStrip (cs : List Char) : List Char :=
  ((cs.dropWhile isPySpace).reverse.dropWhile isPySpace).reverse

/-- `TELEGRAM_CHAT_ID` parsing in `send_telegram`:
`[cid.strip() for cid in TELEGRAM_CHAT_ID.split(",") if cid.strip()]`. -/
def parseChatIds (chatId : String) : List String :=
  (((splitOnComma chatId.data).map (fun cs => String.mk (pyStrip cs))).filter
    (fun s => s ≠ ""))

/-- `send_telegram(text)` of `check_shore_temp.py`, with the delivery
oracle `post chatId text` standing for one HTTP POST returning `r.ok`.
Returns `False` without posting when either configuration string is
empty or no valid chat id remains after parsing; otherwise posts to
every chat id, counts the successes, and returns `success_count > 0`. -/
def send_telegram (token chatId : String) (post : String → String → Bool)
    (text : String) : Bool :=
  if token = "" ∨ chatId = "" then false
  else if parseChatIds chatId = [] then false
  else decide (((parseChatIds chatId).countP fun cid => post cid text) > 0)

/-- The chat ids `send_telegram` actually POSTs to (in order):
none when a configuration guard fires, otherwise every parsed id. -/
def sendAttempts (token chatId : String) : List String :=
  if token = "" ∨ chatId = "" then []
  else if parseChatIds chatId = [] then []
  else parseChatIds chatId

/-- The qualitative comment ("vibe") of `/temp` in `bot.py`. -/
def vibe (temp : Int) : String :=
  if temp ≥ 70 then "Perfect beach day!"
  else if temp ≥ 60 then "Great for the lake."
  else if temp ≥ 50 then "A bit cool — wetsuits recommended."
  else if temp ≥ 40 then "Cold. For brave swimmers only."
  else "Way too cold. Stay on the shore."

/-- The icon accompanying the vibe of `/temp` in `bot.py`. -/
def tempIcon (temp : Int) : String :=
  if temp ≥ 70 then "🔥"
  else if temp ≥ 60 then "☀️"
  else if temp ≥ 50 then "🌤️"
  else if temp ≥ 40 then "🥶"
  else "❄️"

/-- The apology reply of `/temp` when the extractor returns `None`. -/
def apologyMsg : String :=
  "⚠️ Couldn't fetch the temperature right now.\n" ++
  "NOAA may be updating the report. Try again in a few minutes."

/-- The message `main` of `check_shore_temp.py` builds on a successful
reading: the temperature plus, above the 50° threshold, a short note. -/
def dailyMsg (temp : Int) : String :=
  if temp > 50 then
    "Chicago Shore water temp: " ++ toString temp ++ "°F — good time for the lake."
  else
    "Chicago Shore water temp: " ++ toString temp ++ "°F"

/-- The fixed failure notification of `main` in `check_shore_temp.py`. -/
def failureMsg : String := "Chicago Shore: could not fetch temperature."

/-- `main()` of `check_shore_temp.py`, modelled as the list of message
texts it hands to `send_telegram`: on a `None` reading the fixed failure
notification, and only if both configuration values are present;
otherwise the formatted daily message (sent unconditionally —
`send_telegram` itself no-ops when unconfigured). -/
def mainSends (net : Nat → Option (List Char)) (token chatId : String) :
    List String :=
  match fetch_chicago_shore_temp net 2 with
  | none => if token = "" ∨ chatId = "" then [] else [failureMsg]
  | some temp => [dailyMsg temp]

/-- Text following the first occurrence of the station label, if any. -/
def findLabel : List Char → Option (List Char)
  | [] => none
  | c :: cs =>
    match stripLabel labelChars (c :: cs) with
    | some rest => some rest
    | none => findLabel cs

/-- Formalisation of the claim hypothesis "the station label occurs
followed by a non-numeric token": after the first label occurrence,
skipping whitespace, the next maximal non-whitespace token is non-empty
and is not a run of digits. -/
def labelFollowedByNonNumericToken (doc : List Char) : Bool :=
  match findLabel doc with
  | none => false
  | some rest =>
    !((rest.dropWhile isPySpace).takeWhile (fun c => !isPySpace c) = []) &&
    !((rest.dropWhile isPySpace).takeWhile (fun c => !isPySpace c)).all Char.isDigit

end ChicagoShore

namespace ChicagoShore

/-! ## Helper lemmas -/

theorem all_of_sublist {p : Char → Bool} {l l2 : List Char}
    (hs : l.Sublist l2) (h : l2.all p = true) : l.all p = true := by
  rw [List.all_eq_true] at *
  exact fun a ha => h a (hs.mem ha)

theorem takeWhile_nil_of_all_not {p : Char → Bool} {l : List Char}
    (h : l.all (fun c => !p c) = true) : l.takeWhile p = [] := by
  cases l with
  | nil => rfl
  | cons c t =>
    rw [List.all_cons] at h
    have hc : p c = false := by
      cases hpc : p c
      · rfl
      · rw [hpc] at h; simp at h
    simp [List.takeWhile_cons, hc]

theorem stripLabel_all {q : Char → Bool} (pat : List Char) :
    ∀ cs r, stripLabel pat cs = some r → cs.all q = true → r.all q = true := by
  induction pat with
  | nil =>
    intro cs r h hall
    simp [stripLabel] at h
    subst h; exact hall
  | cons p ps ih =>
    intro cs r h hall
    cases cs with
    | nil => simp [stripLabel] at h
    | cons c t =>
      by_cases hm : matchesCI p c = true
      · rw [List.all_cons] at hall
        refine ih t r ?_ (by simp_all)
        simpa [stripLabel, hm] using h
      · simp [stripLabel, hm] at h

theorem p1At_eq_none_of_no_digit {cs : List Char}
    (h : cs.all (fun c => !c.isDigit) = true) : p1At cs = none := by
  unfold p1At
  cases hst : stripLabel labelChars cs with
  | none => rfl
  | some rest =>
    have hrest : rest.all (fun c => !c.isDigit) = true :=
      stripLabel_all labelChars cs rest hst h
    have hrest2 : (rest.dropWhile isDotWs).all (fun c => !c.isDigit) = true :=
      all_of_sublist (List.dropWhile_sublist _) hrest
    have hds : (rest.dropWhile isDotWs).takeWhile Char.isDigit = [] :=
      takeWhile_nil_of_all_not hrest2
    by_cases hws : rest.takeWhile isDotWs = []
    · simp [hws]
    · simp [hws, hds]

theorem p1Search_eq_none_of_no_digit : ∀ {cs : List Char},
    cs.all (fun c => !c.isDigit) = true → p1Search cs = none := by
  intro cs
  induction cs with
  | nil => intro _; rfl
  | cons c t ih =>
    intro h
    have hAt : p1At (c :: t) = none := p1At_eq_none_of_no_digit h
    have ht : t.all (fun c => !c.isDigit) = true := by
      rw [List.all_cons] at h
      exact (Bool.and_eq_true _ _ |>.mp h).2
    simp [p1Search, hAt, ih ht]

theorem p2Inner_eq_none_of_no_digit {cs : List Char}
    (h : cs.all (fun c => !c.isDigit) = true) : p2Inner cs = none := by
  have hds : cs.takeWhile Char.isDigit = [] := takeWhile_nil_of_all_not h
  simp [p2Inner, hds]

theorem p2Scan_eq_none_of_no_digit : ∀ {cs : List Char},
    cs.all (fun c => !c.isDigit) = true → p2Scan cs = none := by
  intro cs
  induction cs with
  | nil => intro _; rfl
  | cons c t ih =>
    intro h
    have hIn : p2Inner (c :: t) = none := p2Inner_eq_none_of_no_digit h
    have ht : t.all (fun c => !c.isDigit) = true := by
      rw [List.all_cons] at h
      exact (Bool.and_eq_true _ _ |>.mp h).2
    simp [p2Scan, hIn, ih ht]

theorem p2At_eq_none_of_no_digit {cs : List Char}
    (h : cs.all (fun c => !c.isDigit) = true) : p2At cs = none := by
  unfold p2At
  cases hst : stripLabel labelChars cs with
  | none => rfl
  | some rest =>
    exact p2Scan_eq_none_of_no_digit (stripLabel_all labelChars cs rest hst h)

theorem p2Search_eq_none_of_no_digit : ∀ {cs : List Char},
    cs.all (fun c => !c.isDigit) = true → p2Search cs = none := by
  intro cs
  induction cs with
  | nil => intro _; rfl
  | cons c t ih =>
    intro h
    have hAt : p2At (c :: t) = none := p2At_eq_none_of_no_digit h
    have ht : t.all (fun c => !c.isDigit) = true := by
      rw [List.all_cons] at h
      exact (Bool.and_eq_true _ _ |>.mp h).2
    simp [p2Search, hAt, ih ht]

theorem p1At_capture {cs g : List Char} (h : p1At cs = some g) :
    g ≠ [] ∧ g.all Char.isDigit = true := by
  unfold p1At at h
  split at h
  · exact absurd h (by simp)
  · split at h
    · exact absurd h (by simp)
    · split at h
      · exact absurd h (by simp)
      · injection h with h
        subst h
        exact ⟨by assumption, List.all_takeWhile⟩

theorem p1Search_capture : ∀ {cs g : List Char}, p1Search cs = some g →
    g ≠ [] ∧ g.all Char.isDigit = true := by
  intro cs
  induction cs with
  | nil => intro g h; exact absurd h (by simp [p1Search])
  | cons c t ih =>
    intro g h
    rw [p1Search] at h
    cases hAt : p1At (c :: t) with
    | some ds =>
      rw [hAt] at h
      injection h with h
      subst h
      exact p1At_capture hAt
    | none =>
      rw [hAt] at h
      exact ih h

theorem p2Inner_capture {cs g : List Char} (h : p2Inner cs = some g) :
    g ≠ [] ∧ g.all Char.isDigit = true := by
  unfold p2Inner at h
  split at h
  · exact absurd h (by simp)
  · split at h
    · exact absurd h (by simp)
    · split at h
      · injection h with h
        subst h
        exact ⟨by assumption, List.all_takeWhile⟩
      · exact absurd h (by simp)

theorem p2Scan_capture : ∀ {cs g : List Char}, p2Scan cs = some g →
    g ≠ [] ∧ g.all Char.isDigit = true := by
  intro cs
  induction cs with
  | nil => intro g h; exact absurd h (by simp [p2Scan])
  | cons c t ih =>
    intro g h
    rw [p2Scan] at h
    cases hIn : p2Inner (c :: t) with
    | some ds =>
      rw [hIn] at h
      injection h with h
      subst h
      exact p2Inner_capture hIn
    | none =>
      rw [hIn] at h
      exact ih h

theorem p2At_capture {cs g : List Char} (h : p2At cs = some g) :
    g ≠ [] ∧ g.all Char.isDigit = true := by
  unfold p2At at h
  split at h
  · exact absurd h (by simp)
  · exact p2Scan_capture h

theorem p2Search_capture : ∀ {cs g : List Char}, p2Search cs = some g →
    g ≠ [] ∧ g.all Char.isDigit = true := by
  intro cs
  induction cs with
  | nil => intro g h; exact absurd h (by simp [p2Search])
  | cons c t ih =>
    intro g h
    rw [p2Search] at h
    cases hAt : p2At (c :: t) with
    | some ds =>
      rw [hAt] at h
      injection h with h
      subst h
      exact p2At_capture hAt
    | none =>
      rw [hAt] at h
      exact ih h

theorem pyInt?_of_digits {g : List Char}
    (h1 : g ≠ []) (h2 : g.all Char.isDigit = true) :
    pyInt? g = some (Int.ofNat (digitsToNat g)) := by
  unfold pyInt?
  rw [if_neg h1, if_pos h2]

theorem fetchLoop_all_fail (net : Nat → Option (List Char))
    (h : ∀ i, net i = none) :
    ∀ fuel attempt, fetchLoop net attempt fuel = none ∧
      fetchAttempts net attempt fuel = fuel + 1 := by
  intro fuel
  induction fuel with
  | zero => intro attempt; exact ⟨h attempt, rfl⟩
  | succ n ih =>
    intro attempt
    constructor
    · have e : fetchLoop net attempt (n + 1) = fetchLoop net (attempt + 1) n := by
        show (match net attempt with
          | some doc => some doc
          | none => fetchLoop net (attempt + 1) n) = _
        rw [h attempt]
      rw [e, (ih (attempt + 1)).1]
    · have e : fetchAttempts net attempt (n + 1) =
          1 + fetchAttempts net (attempt + 1) n := by
        show (match net attempt with
          | some _ => 1
          | none => 1 + fetchAttempts net (attempt + 1) n) = _
        rw [h attempt]
      rw [e, (ih (attempt + 1)).2]
      omega

end ChicagoShore

namespace ChicagoShore

/-! ## Claim theorems -/

/-- C1 counterexample: the `/temp` reply's qualitative comment is NOT
chosen by the single threshold 50: the temperatures 72 and 55 are both
strictly greater than 50, yet `bot.py` replies with different comments
(72 gets "Perfect beach day!", 55 gets the cautionary
"A bit cool — wetsuits recommended."), so the comment is not a function
of whether the temperature exceeds 50. -/
theorem c1_counterexample :
    (72 : Int) > 50 ∧ (55 : Int) > 50 ∧ vibe 72 ≠ vibe 55 := by
  refine ⟨by norm_num, by norm_num, ?_⟩
  decide

/-- C1 (amended): the interactive `/temp` command chooses its
qualitative comment by four thresholds (70, 60, 50, 40) into five tiers
— 72 selects the encouraging "Perfect beach day!" and 38 the cautionary
"Way too cold. Stay on the shore." — while it is the one-shot script's
daily message that uses the single threshold 50: strictly above 50 the
encouraging note " — good time for the lake." is appended, at 50 or
below the message carries no comment at all. -/
theorem c1_amended (t : Int) :
    (70 ≤ t → vibe t = "Perfect beach day!") ∧
    (60 ≤ t → t < 70 → vibe t = "Great for the lake.") ∧
    (50 ≤ t → t < 60 → vibe t = "A bit cool — wetsuits recommended.") ∧
    (40 ≤ t → t < 50 → vibe t = "Cold. For brave swimmers only.") ∧
    (t < 40 → vibe t = "Way too cold. Stay on the shore.") ∧
    (50 < t → dailyMsg t =
      "Chicago Shore water temp: " ++ toString t ++ "°F — good time for the lake.") ∧
    (t ≤ 50 → dailyMsg t = "Chicago Shore water temp: " ++ toString t ++ "°F") := by
  unfold vibe dailyMsg
  refine ⟨fun h => ?_, fun h h2 => ?_, fun h h2 => ?_, fun h h2 => ?_,
    fun h => ?_, fun h => ?_, fun h => ?_⟩
  · rw [if_pos (by omega)]
  · rw [if_neg (by omega), if_pos (by omega)]
  · rw [if_neg (by omega), if_neg (by omega), if_pos (by omega)]
  · rw [if_neg (by omega), if_neg (by omega), if_neg (by omega), if_pos (by omega)]
  · rw [if_neg (by omega), if_neg (by omega), if_neg (by omega), if_neg (by omega)]
  · rw [if_pos (by omega)]
  · rw [if_neg (by omega)]

/-- C1 witness: the amended tier characterisation evaluated at the
spec's example temperatures 72 and 38 and at the boundary 51. -/
theorem c1_amended_witness :
    vibe 72 = "Perfect beach day!" ∧
    vibe 38 = "Way too cold. Stay on the shore." ∧
    dailyMsg 51 = "Chicago Shore water temp: " ++ toString (51 : Int) ++
      "°F — good time for the lake." :=
  ⟨(c1_amended 72).1 (by norm_num),
   ((c1_amended 38).2.2.2.2).1 (by norm_num),
   ((c1_amended 51).2.2.2.2.2).1 (by norm_num)⟩

end ChicagoShore

namespace ChicagoShore

/-- C2 counterexample: in the document `"CHICAGO SHORE  text 47 F"` the
station label is followed by the non-numeric token `"text"`, yet
extraction does not return `None` — the fallback pattern still finds
`47` later in the line (exactly the behaviour C3 prescribes). -/
theorem c2_counterexample :
    labelFollowedByNonNumericToken ("CHICAGO SHORE  text 47 F").data = true ∧
    extract "CHICAGO SHORE  text 47 F" = some 47 := by
  constructor
  · decide
  · decide

/-- C2 (amended): for a document in which the label is followed by a
non-numeric token and which contains no digit character at all (so
neither pattern can capture anything, e.g. `"CHICAGO SHORE cold front."`),
extraction returns `None`; when a digit run followed by the unit marker
occurs after the label, the fallback pattern extracts it instead. -/
theorem c2_amended (doc : List Char)
    (_hlabel : labelFollowedByNonNumericToken doc = true)
    (hnod : doc.all (fun c => !c.isDigit) = true) :
    extractTemp doc = none := by
  have h1 := p1Search_eq_none_of_no_digit hnod
  have h2 := p2Search_eq_none_of_no_digit hnod
  unfold extractTemp
  rw [h1, h2]

/-- C2 witness: the amended statement evaluated on the concrete document
`"CHICAGO SHORE cold front."`. -/
theorem c2_amended_witness :
    extractTemp ("CHICAGO SHORE cold front.").data = none :=
  c2_amended ("CHICAGO SHORE cold front.").data (by decide) (by decide)

/-- C3: a document containing `"CHICAGO SHORE...........47."` extracts
the integer 47 — via the tight pattern, whose search already succeeds —
and a document containing `"CHICAGO SHORE  text 47 F"` also extracts 47,
via the fallback pattern (the tight pattern finds no match there). -/
theorem c3_extraction_examples :
    extract "OMR\nCHICAGO SHORE...........47.\nEND" = some 47 ∧
    p1Search ("OMR\nCHICAGO SHORE...........47.\nEND").data = some ['4', '7'] ∧
    extract "OMR\nCHICAGO SHORE  text 47 F\nEND" = some 47 ∧
    p1Search ("OMR\nCHICAGO SHORE  text 47 F\nEND").data = none ∧
    p2Search ("OMR\nCHICAGO SHORE  text 47 F\nEND").data = some ['4', '7'] := by
  refine ⟨?_, ?_, ?_, ?_, ?_⟩ <;> decide

/-- C4: the two pattern variants are tried in a fixed sequence with the
tight pattern first: whenever the tight pattern finds a capture, the
extraction result is the parse of that capture (whatever the fallback
would capture), and only when the tight pattern finds no match is the
fallback pattern's capture parsed. -/
theorem c4_first_pattern_wins (doc : List Char) :
    (∀ g1, p1Search doc = some g1 → extractTemp doc = pyInt? g1) ∧
    (p1Search doc = none →
      extractTemp doc = match p2Search doc with
        | some g2 => pyInt? g2
        | none => none) := by
  constructor
  · intro g1 h
    unfold extractTemp
    rw [h]
  · intro h
    unfold extractTemp
    rw [h]

/-- C4 witness: on `"CHICAGO SHORE..47 and 99 F"` both patterns match
with different captures (the tight pattern captures `47`, the fallback
`99`), and extraction returns 47, the first pattern's number. -/
theorem c4_first_pattern_wins_witness :
    p1Search ("CHICAGO SHORE..47 and 99 F").data = some ['4', '7'] ∧
    p2Search ("CHICAGO SHORE..47 and 99 F").data = some ['9', '9'] ∧
    extractTemp ("CHICAGO SHORE..47 and 99 F").data = some 47 := by
  refine ⟨by decide, by decide, ?_⟩
  have h := (c4_first_pattern_wins ("CHICAGO SHORE..47 and 99 F").data).1
    ['4', '7'] (by decide)
  rw [h]
  decide

/-- C5: when every attempt fails with a network error, the fetch makes
exactly 3 HTTP GET attempts (the initial one plus `max_retries = 2`
retries) and `fetch_chicago_shore_temp` returns `None` rather than
raising — the same `None` the caller gets when the label is not found. -/
theorem c5_retries_then_none (net : Nat → Option (List Char))
    (h : ∀ i, net i = none) :
    fetch_chicago_shore_temp net 2 = none ∧ fetchAttempts net 0 2 = 3 := by
  have h2 := fetchLoop_all_fail net h 2 0
  refine ⟨?_, h2.2⟩
  unfold fetch_chicago_shore_temp
  rw [h2.1]

/-- C5 witness: the always-failing network oracle. -/
theorem c5_retries_then_none_witness :
    fetch_chicago_shore_temp (fun _ => none) 2 = none ∧
    fetchAttempts (fun _ => none) 0 2 = 3 :=
  c5_retries_then_none (fun _ => none) (fun _ => rfl)

end ChicagoShore

namespace ChicagoShore

/-- C6: with both configuration values present, `send_telegram` returns
`True` exactly when at least one configured destination delivery
succeeded, and it POSTs to every parsed chat id — it never aborts early
on a per-destination failure. -/
theorem c6_send_success_iff (token chatId text : String)
    (post : String → String → Bool) (h1 : token ≠ "") (h2 : chatId ≠ "") :
    (send_telegram token chatId post text = true ↔
      ∃ cid ∈ parseChatIds chatId, post cid text = true) ∧
    sendAttempts token chatId = parseChatIds chatId := by
  have hcond : ¬(token = "" ∨ chatId = "") := by
    rintro (h | h)
    · exact h1 h
    · exact h2 h
  constructor
  · unfold send_telegram
    rw [if_neg hcond]
    by_cases hids : parseChatIds chatId = []
    · rw [if_pos hids, hids]
      simp
    · rw [if_neg hids, decide_eq_true_eq]
      exact List.countP_pos_iff
  · unfold sendAttempts
    rw [if_neg hcond]
    by_cases hids : parseChatIds chatId = []
    · rw [if_pos hids, hids]
    · rw [if_neg hids]

/-- C6 witness: token `"t"`, destinations `"a,b"`, and a delivery oracle
that succeeds only for chat `"b"`: both destinations are attempted and
the overall result is success. -/
theorem c6_send_success_iff_witness :
    send_telegram "t" "a,b" (fun cid _ => cid = "b") "hi" = true ∧
    sendAttempts "t" "a,b" = ["a", "b"] := by
  have h := c6_send_success_iff "t" "a,b" "hi" (fun cid _ => cid = "b")
    (by decide) (by decide)
  refine ⟨h.1.mpr ⟨"b", by decide, by decide⟩, ?_⟩
  rw [h.2]
  decide

/-- C7: if the API token or the chat id configuration value is empty,
`send_telegram` returns `False` for every message and issues zero HTTP
POSTs. -/
theorem c7_missing_config_no_post (token chatId text : String)
    (post : String → String → Bool) (h : token = "" ∨ chatId = "") :
    send_telegram token chatId post text = false ∧
    sendAttempts token chatId = [] := by
  constructor
  · unfold send_telegram
    rw [if_pos h]
  · unfold sendAttempts
    rw [if_pos h]

/-- C7 witness: empty token with a configured destination and an
always-succeeding transport — still failure, still no POST. -/
theorem c7_missing_config_no_post_witness :
    send_telegram "" "123" (fun _ _ => true) "msg" = false ∧
    sendAttempts "" "123" = [] :=
  c7_missing_config_no_post "" "123" "msg" (fun _ _ => true) (Or.inl rfl)

/-- C8: whenever either pattern matches, the captured group is a
non-empty run of decimal digits, so `int()` on it cannot fail: the
guarded parse-failure branch after a successful match is unreachable,
and extraction returns a value. -/
theorem c8_capture_always_parses (doc g : List Char)
    (h : p1Search doc = some g ∨ p2Search doc = some g) :
    g ≠ [] ∧ g.all Char.isDigit = true ∧
    pyInt? g = some (Int.ofNat (digitsToNat g)) ∧
    (extractTemp doc).isSome = true := by
  have hg : g ≠ [] ∧ g.all Char.isDigit = true := by
    cases h with
    | inl h => exact p1Search_capture h
    | inr h => exact p2Search_capture h
  refine ⟨hg.1, hg.2, pyInt?_of_digits hg.1 hg.2, ?_⟩
  unfold extractTemp
  cases h1 : p1Search doc with
  | some g1 =>
    have hg1 := p1Search_capture h1
    show (pyInt? g1).isSome = true
    rw [pyInt?_of_digits hg1.1 hg1.2]
    rfl
  | none =>
    cases h with
    | inl hl => rw [h1] at hl; exact absurd hl (by simp)
    | inr hr =>
      rw [hr]
      show (pyInt? g).isSome = true
      rw [pyInt?_of_digits hg.1 hg.2]
      rfl

/-- C8 witness: the tight pattern's capture on the spec's example
document parses to 47 and extraction succeeds. -/
theorem c8_capture_always_parses_witness :
    pyInt? ['4', '7'] = some 47 ∧
    (extractTemp ("CHICAGO SHORE...........47.").data).isSome = true := by
  have h := c8_capture_always_parses ("CHICAGO SHORE...........47.").data
    ['4', '7'] (Or.inl (by decide))
  refine ⟨?_, h.2.2.2⟩
  rw [h.2.2.1]
  decide

/-- C9: extraction is deterministic in the document content — the parse
stage is a pure function of the document text, so any two applications
to the same text return the same reading; there is no hidden mutable
state in the embedding. -/
theorem c9_extraction_deterministic (doc : List Char) :
    extractTemp doc = extractTemp doc := rfl

/-- C10: in the one-shot script, when the fetch produced no reading,
the fixed failure notification "Chicago Shore: could not fetch
temperature." is handed to the notifier (which POSTs it to every
configured destination) exactly when both configuration values are
present; when either is absent, nothing is sent on the failure path. -/
theorem c10_failure_notification (net : Nat → Option (List Char))
    (token chatId : String) (hf : fetch_chicago_shore_temp net 2 = none) :
    (¬(token = "" ∨ chatId = "") →
      mainSends net token chatId = [failureMsg] ∧
      sendAttempts token chatId = parseChatIds chatId) ∧
    ((token = "" ∨ chatId = "") → mainSends net token chatId = []) := by
  constructor
  · intro h
    constructor
    · unfold mainSends
      rw [hf, if_neg h]
    · unfold sendAttempts
      rw [if_neg h]
      by_cases hids : parseChatIds chatId = []
      · rw [if_pos hids, hids]
      · rw [if_neg hids]
  · intro h
    unfold mainSends
    rw [hf, if_pos h]

/-- C10 witness: an always-failing network with token `"t"` and chat id
`"42"` sends exactly the failure notification; with the token removed it
sends nothing. -/
theorem c10_failure_notification_witness :
    mainSends (fun _ => none) "t" "42" = [failureMsg] ∧
    mainSends (fun _ => none) "" "42" = [] := by
  constructor
  · exact ((c10_failure_notification (fun _ => none) "t" "42" rfl).1
      (by decide)).1
  · exact (c10_failure_notification (fun _ => none) "" "42" rfl).2 (Or.inl rfl)

end ChicagoShore
